import Mathlib

/-!
Shallow embedding of the tiered pricing engine of the iceland-car-scraper
repository: the training pipeline (`analysis/train_price_models_3.py`), the
prediction resolver (`analysis/predict_price.py`) and the model-base
normalization (`utils/normalizer.py`).

Conventions of the embedding:
* Python floats are modelled as `ℚ` (exact rationals).  Transcendental
  numerical primitives that cannot be represented exactly over `ℚ`
  (`np.log1p`, the exponential recency decay `exp(-λ·days)`, `math.sqrt`,
  `np.linalg.pinv`) are threaded through as explicit function parameters in
  the `Prims` structure; every claim proved below holds for every choice of
  these parameters.
* `np.std(xs) >= t` comparisons against a non-negative threshold `t` are
  embedded as `varQ xs >= t^2` (the population variance against the squared
  threshold), which is equivalent because `sqrt` is monotone; this keeps the
  development inside `ℚ`.
* Nullable database columns are `Option` fields; Python truthiness of a
  numeric column is `getD 0 ≠ 0` and of a string column is `getD "" ≠ ""`.
* SQL rows of the `price_models` table are records in a `List PriceModel`
  (most recently inserted first); the delete-then-insert upsert is a filter
  followed by a cons.
-/

namespace Scraper

open Matrix BigOperators

/-! ## Data model -/

/-- The parsed `coef_json` payload of a `PriceModel` row: the persisted
4-slot coefficient vector. -/
structure Coefs where
  intercept : ℚ
  beta_age : ℚ
  beta_logkm : ℚ
  beta_age_logkm : ℚ
deriving DecidableEq, Repr

/-- One row of the `price_models` table (`db/models.py`).  `display_name`
and `display_make` are presentation strings computed by normalizer helpers. -/
structure PriceModel where
  tier : String
  make_norm : Option String
  model_base : Option String
  display_name : String
  display_make : Option String
  coefs : Coefs
  n_samples : ℕ
  r2 : ℚ
  rmse : Option ℚ
  trained_at : ℤ
  year : Option ℤ
deriving DecidableEq, Repr

/-- The model store: the `price_models` table as a list of rows, most
recently inserted first. -/
abbrev Store := List PriceModel

/-- One row of the `car_listings` table as consumed by training: the
nullable `price`, `year`, `kilometers` columns, the recency of the
observation in days (`(now - scraped_at)/86400`, `0` when `scraped_at` is
missing, matching `_as_aware(None, now)`), and the raw free-text make and
model. -/
structure CarListing where
  price : Option ℚ
  year : Option ℤ
  kilometers : Option ℚ
  days_ago : ℚ
  make : Option String
  model : Option String
deriving DecidableEq, Repr

/-- Numerical and text primitives that the Python code takes from numpy /
math / the normalizer display helpers and that have no exact rational or
easily-embedded form.  All theorems below hold for every interpretation of
these primitives.  `log1p` is `np.log1p`, `decay d` is `exp(-LAMBDA*d)`,
`sqrtQ` is `math.sqrt`/`np.std`'s final square root, `pinv` is
`np.linalg.pinv`, `get_display_name`/`pretty_make`/`capitalize` are the
display-string helpers of `utils/normalizer.py`, and `now` is the
`datetime.now` timestamp written into `trained_at`. -/
structure Prims where
  log1p : ℚ → ℚ
  decay : ℚ → ℚ
  sqrtQ : ℚ → ℚ
  pinv : {p : ℕ} → Matrix (Fin p) (Fin p) ℚ → Matrix (Fin p) (Fin p) ℚ
  get_display_name : String → Option String
  pretty_make : String → Option String
  capitalize : String → String
  now : ℤ

/-! ## Configuration constants (`train_price_models_3.py` lines 19-35) -/

def MIN_SAMPLES_MODEL : ℕ := 5
def MIN_SAMPLES_MAKE : ℕ := 5
def MIN_SAMPLES_MODEL_YEAR : ℕ := 12
def IRLS_STEPS : ℕ := 3
def HUBER_C : ℚ := 1345/1000
def RIDGE_ALPHA_BASE : ℚ := 1
/-- `MIN_AGE_STD = 0.25`, squared (std comparisons are embedded at the
variance level). -/
def MIN_AGE_STD_SQ : ℚ := (25/100)^2
/-- `MIN_LOGKM_STD = 0.10`, squared. -/
def MIN_LOGKM_STD_SQ : ℚ := (10/100)^2
/-- `MIN_LOGKM_STD_YR = 0.10`, squared. -/
def MIN_LOGKM_STD_YR_SQ : ℚ := (10/100)^2
/-- The `1e-9` numerical-zero guard of `huber_weights`. -/
def NUMERICAL_ZERO : ℚ := 1/1000000000

/-! ## Observation Cleaner (`clean_rows`, lines 53-70) -/

/-- `np.percentile(xs, q)` with the default linear interpolation method. -/
def percentile (xs : List ℚ) (q : ℚ) : ℚ :=
  let s := xs.insertionSort (· ≤ ·)
  let n := s.length
  let pos := q * (n - 1) / 100
  let i := pos.floor.toNat
  let frac := pos - pos.floor
  let a := s.getD i 0
  let b := s.getD (min (i + 1) (n - 1)) 0
  a + frac * (b - a)

/-- The two validity list-comprehensions at the top of `clean_rows`:
`r.price and r.year and r.kilometers is not None`, then
`1990 <= int(r.year) <= CURRENT_YEAR and r.kilometers >= 0 and r.price > 0`. -/
def valid_rows (cy : ℤ) (rows : List CarListing) : List CarListing :=
  (rows.filter fun r =>
      decide (r.price.getD 0 ≠ 0 ∧ r.year.getD 0 ≠ 0 ∧ r.kilometers ≠ none)).filter
    fun r =>
      decide (1990 ≤ r.year.getD 0 ∧ r.year.getD 0 ≤ cy ∧
        0 ≤ r.kilometers.getD 0 ∧ 0 < r.price.getD 0)

/-- `clean_rows`: validity filter, then a 5th/95th percentile trim on price
and on kilometers, each skipped when fewer than 5 rows remain. -/
def clean_rows (cy : ℤ) (rows : List CarListing) : List CarListing :=
  if rows = [] then []
  else
    let rows1 := valid_rows cy rows
    if rows1.length < 5 then rows1
    else
      let q1 := percentile (rows1.map fun r => r.price.getD 0) 5
      let q3 := percentile (rows1.map fun r => r.price.getD 0) 95
      let rows2 := rows1.filter fun r =>
        decide (q1 ≤ r.price.getD 0 ∧ r.price.getD 0 ≤ q3)
      if rows2.length < 5 then rows2
      else
        let k1 := percentile (rows2.map fun r => r.kilometers.getD 0) 5
        let k3 := percentile (rows2.map fun r => r.kilometers.getD 0) 95
        rows2.filter fun r =>
          decide (k1 ≤ r.kilometers.getD 0 ∧ r.kilometers.getD 0 ≤ k3)

/-! ## Robust Weighted Regression Engine (lines 108-162) -/

/-- `kish_effective_n(w)`: `(Σw)²/Σw²` when `Σw² > 0`, else `0.0`. -/
def kishFn {n : ℕ} (w : Fin n → ℚ) : ℚ :=
  let s1 := ∑ i, w i
  let s2 := ∑ i, (w i) ^ 2
  if 0 < s2 then s1 * s1 / s2 else 0

/-- The scalar body of `huber_weights` for one residual after the
`scale <= 1e-9` guard has passed: weight `1` inside the Huber band, else
`1/clip(|r|, 1e-9, None)`, finally `np.clip(w, 0, 1)`. -/
def huber_weight1 (scale c x : ℚ) : ℚ :=
  let r := x / (scale * c)
  let w := if 1 < |r| then 1 / max |r| NUMERICAL_ZERO else 1
  min 1 (max 0 w)

/-- `huber_weights(residuals, scale, c)` (lines 113-120), elementwise over
the residual vector. -/
def huber_weights {n : ℕ} (residuals : Fin n → ℚ) (scale c : ℚ) : Fin n → ℚ :=
  if scale ≤ NUMERICAL_ZERO then fun _ => 1
  else fun i => huber_weight1 scale c (residuals i)

/-- `np.eye(p)` with the `[0,0]` entry overwritten by `0.0`: the ridge
regularization pattern that leaves the intercept unregularized. -/
def interceptZeroEye (p : ℕ) : Matrix (Fin p) (Fin p) ℚ :=
  Matrix.of fun i j => if i = j then (if (i : ℕ) = 0 then 0 else 1) else 0

/-- `weighted_ridge(X, y, w, alpha)` (lines 122-130):
`pinv(XᵀWX + alpha·I') @ (XᵀW) @ y` with `I' = interceptZeroEye`. -/
def weighted_ridge (F : Prims) {n p : ℕ} (X : Matrix (Fin n) (Fin p) ℚ)
    (y w : Fin n → ℚ) (alpha : ℚ) : Fin p → ℚ :=
  let W := Matrix.diagonal w
  let XtW := Xᵀ * W
  let A := XtW * X
  let A_reg := A + alpha • interceptZeroEye p
  let b := XtW *ᵥ y
  F.pinv A_reg *ᵥ b

/-- `np.median` of a list (sorted middle element, or mean of the two middle
elements; `0` for the empty list, which `np.median` rejects and the
trainers never reach). -/
def medianQ (xs : List ℚ) : ℚ :=
  let s := xs.insertionSort (· ≤ ·)
  let n := s.length
  if n = 0 then 0
  else if n % 2 = 1 then s.getD (n / 2) 0
  else (s.getD (n / 2 - 1) 0 + s.getD (n / 2) 0) / 2

/-- Population variance (`np.std` squared, ddof = 0); `np.std(xs) ⋈ t`
comparisons are embedded as `varQ xs ⋈ t²`. -/
def varQ (xs : List ℚ) : ℚ :=
  let n := xs.length
  if n = 0 then 0
  else
    let m := xs.sum / n
    (xs.map fun x => (x - m) ^ 2).sum / n

/-- The per-round ridge penalty of `robust_ridge` (lines 150-151):
`n_eff = max(kish_effective_n(w), 1.0)`, then
`alpha = RIDGE_ALPHA_BASE * (4.0 / max(n_eff, 4.0))`. -/
def irls_alpha {n : ℕ} (w : Fin n → ℚ) : ℚ :=
  let n_eff := max (kishFn w) 1
  RIDGE_ALPHA_BASE * (4 / max n_eff 4)

/-- `np.max` over a weight vector (`0` for an empty vector, unreachable in
the trainers). -/
def maxFn {n : ℕ} (w : Fin n → ℚ) : ℚ :=
  match List.ofFn w with
  | [] => 0
  | x :: xs => xs.foldl max x

/-- One round of the IRLS loop of `robust_ridge` (lines 149-160): solve the
ridge system at the adaptive penalty, compute the MAD-based robust scale of
the residuals (falling back to `np.std(resid) or 1.0`), Huber-reweight, and
renormalize `w_recency * w_rob` by `np.max(w) or 1.0`.  Returns the fitted
coefficients and the new weight vector. -/
def irls_step (F : Prims) {n p : ℕ} (X : Matrix (Fin n) (Fin p) ℚ)
    (y w_recency : Fin n → ℚ) (w : Fin n → ℚ) : (Fin p → ℚ) × (Fin n → ℚ) :=
  let alpha := irls_alpha w
  let coef := weighted_ridge F X y w alpha
  let resid := fun i => y i - (X *ᵥ coef) i
  let residL := List.ofFn resid
  let med := medianQ residL
  let mad := medianQ (residL.map fun x => |x - med|)
  let scale :=
    if 0 < mad then (14826/10000) * mad
    else
      let s := F.sqrtQ (varQ residL)
      if s = 0 then 1 else s
  let w_rob := huber_weights resid scale HUBER_C
  let w1 := fun i => w_recency i * w_rob i
  let mx := maxFn w1
  (coef, fun i => w1 i / (if mx = 0 then 1 else mx))

/-- `weighted_metrics(X, y, w, coef)` (lines 132-144): weighted R² against
the weighted mean of `y`, and weighted RMSE over the Kish effective
residual degrees of freedom `max(n_eff - p, 1)`. -/
def weighted_metrics (F : Prims) {n p : ℕ} (X : Matrix (Fin n) (Fin p) ℚ)
    (y w : Fin n → ℚ) (coef : Fin p → ℚ) : ℚ × ℚ × ℚ :=
  let yhat := X *ᵥ coef
  let wsum0 := ∑ i, w i
  let w_sum := if 0 < wsum0 then wsum0 else 1
  let y_bar := (∑ i, w i * y i) / w_sum
  let ss_res := ∑ i, w i * (y i - yhat i) ^ 2
  let ss_tot := ∑ i, w i * (y i - y_bar) ^ 2
  let r2 := if 0 < ss_tot then 1 - ss_res / ss_tot else 0
  let n_eff := kishFn w
  let dof := max (n_eff - p) 1
  let rmse := F.sqrtQ (ss_res / dof)
  (r2, rmse, n_eff)

/-- `robust_ridge(X, y, w_recency)` (lines 146-162): three IRLS rounds
starting from the recency weights, then the final weighted metrics.
Returns `(coef, r2, rmse, final weights)`. -/
def robust_ridge (F : Prims) {n p : ℕ} (X : Matrix (Fin n) (Fin p) ℚ)
    (y w_recency : Fin n → ℚ) : (Fin p → ℚ) × ℚ × ℚ × (Fin n → ℚ) :=
  let s1 := irls_step F X y w_recency w_recency
  let s2 := irls_step F X y w_recency s1.2
  let s3 := irls_step F X y w_recency s2.2
  let m := weighted_metrics F X y s3.2 s3.1
  (s3.1, m.1, m.2.1, s3.2)

/-! ## Model Store (`upsert_model`, lines 169-219) -/

/-- Python `a or b` on an optional string: `b` when `a` is `None` or empty. -/
def pyOrS (a : Option String) (b : String) : String :=
  match a with
  | none => b
  | some s => if s = "" then b else s

/-- Python truthiness of an optional string. -/
def truthyS (o : Option String) : Bool := decide (o.getD "" ≠ "")

/-- The `coef_json` mapping of `upsert_model` (lines 180-185): pads a
2-vector `[intercept, beta_logkm]` or passes a full 4-vector through,
always producing the 4-slot schema.  (Out-of-range indices read `0`; the
Python code never calls this with fewer than 2 coefficients.) -/
def coefJsonOf (coef : List ℚ) : Coefs :=
  { intercept := coef.getD 0 0
    beta_age := if 2 < coef.length then coef.getD 1 0 else 0
    beta_logkm := if 2 < coef.length then coef.getD 2 0 else coef.getD 1 0
    beta_age_logkm := if 3 < coef.length then coef.getD 3 0 else 0 }

/-- `upsert_model` (lines 169-219): build the 4-slot `coef_json` and the
display strings, delete every row whose `(tier, make_norm, model_base,
year)` key matches (NULLs matching NULLs), and insert the new row. -/
def upsert_model (F : Prims) (db : Store) (tier : String)
    (make_norm model_base_s : Option String) (coef : List ℚ) (n : ℕ)
    (r2 rmse : ℚ) (year : Option ℤ) : Store :=
  let coef_json := coefJsonOf coef
  let display_name :=
    if truthyS model_base_s then
      pyOrS (F.get_display_name (model_base_s.getD "")) (model_base_s.getD "")
    else if truthyS make_norm then
      pyOrS (F.pretty_make (make_norm.getD ""))
        (if truthyS make_norm then F.capitalize (make_norm.getD "") else "Global")
    else "Global"
  let display_make :=
    if truthyS make_norm then F.pretty_make (make_norm.getD "") else none
  let db' := db.filter fun pm =>
    decide ¬(pm.tier = tier ∧ pm.make_norm = make_norm ∧
      pm.model_base = model_base_s ∧ pm.year = year)
  { tier := tier, make_norm := make_norm, model_base := model_base_s,
    display_name := display_name, display_make := display_make,
    coefs := coef_json, n_samples := n, r2 := r2, rmse := some rmse,
    trained_at := F.now, year := year } :: db'

/-! ## Trainers (lines 226-287) -/

/-- The Python trainers return `(False, reason)` on a skip and
`(True, {"n": .., "r2": .., "rmse": ..})` on success. -/
inductive TrainOutcome where
  | skip (reason : String)
  | ok (n : ℕ) (r2 rmse : ℚ)
deriving DecidableEq, Repr

/-- The clamped recency of one row: `max(0.0, min(delta_days, 3650.0))`. -/
def clampedDays (r : CarListing) : ℚ := max 0 (min r.days_ago 3650)

/-- The per-row recency weight vector of `recency_weights` (lines 82-90),
indexed over a cleaned row list. -/
def wrecOf (F : Prims) (rows : List CarListing) : Fin rows.length → ℚ :=
  fun i => F.decay (clampedDays (rows.get i))

/-- The `age` feature column of `make_design_pooled` (line 93). -/
def agesOf (cy : ℤ) (rows : List CarListing) : Fin rows.length → ℚ :=
  fun i => ((cy - (rows.get i).year.getD 0 : ℤ) : ℚ)

/-- The `log_km` feature column (`np.log1p(kilometers)`). -/
def logkmOf (F : Prims) (rows : List CarListing) : Fin rows.length → ℚ :=
  fun i => F.log1p ((rows.get i).kilometers.getD 0)

/-- The target vector `y` (prices). -/
def priceOf (rows : List CarListing) : Fin rows.length → ℚ :=
  fun i => (rows.get i).price.getD 0

/-- The full 4-column pooled design `[1, age, log_km, age*log_km]`. -/
def pooledDesignFull (F : Prims) (cy : ℤ) (rows : List CarListing) :
    Matrix (Fin rows.length) (Fin 4) ℚ :=
  Matrix.of fun i => ![1, agesOf cy rows i, logkmOf F rows i,
    agesOf cy rows i * logkmOf F rows i]

/-- The reduced `[1, log_km]` design (line 255). -/
def pooledDesignLogkm (F : Prims) (rows : List CarListing) :
    Matrix (Fin rows.length) (Fin 2) ℚ :=
  Matrix.of fun i => ![1, logkmOf F rows i]

/-- The reduced `[1, age]` design (line 258). -/
def pooledDesignAge (cy : ℤ) (rows : List CarListing) :
    Matrix (Fin rows.length) (Fin 2) ℚ :=
  Matrix.of fun i => ![1, agesOf cy rows i]

/-- The intercept-only design (line 261). -/
def pooledDesignOnes (rows : List CarListing) :
    Matrix (Fin rows.length) (Fin 1) ℚ :=
  Matrix.of fun _ => ![1]

/-- `train_for_group_pooled` (lines 226-264): clean, gate at 8 rows, pick
the full or a variance-guarded reduced design, fit with `robust_ridge`, map
the reduced coefficients into the 4-slot vector (unused slots exactly `0`)
and upsert.  The store is threaded explicitly; the first component of the
result is the store after the call. -/
def train_for_group_pooled (F : Prims) (cy : ℤ) (db : Store)
    (rows0 : List CarListing) (tier : String)
    (make_norm model_base_s : Option String) : Store × TrainOutcome :=
  let rows := clean_rows cy rows0
  if rows.length < 8 then (db, .skip "too_few_after_trim")
  else
    let y := priceOf rows
    let w_recency := wrecOf F rows
    let age_var := varQ (List.ofFn (agesOf cy rows))
    let km_var := varQ (List.ofFn (logkmOf F rows))
    let fitUpsert := fun (p : ℕ) (X : Matrix (Fin rows.length) (Fin p) ℚ)
        (map_to_full : (Fin p → ℚ) → ℚ × ℚ × ℚ × ℚ) =>
      let rr := robust_ridge F X y w_recency
      let b := map_to_full rr.1
      (upsert_model F db tier make_norm model_base_s
        [b.1, b.2.1, b.2.2.1, b.2.2.2] rows.length rr.2.1 rr.2.2.1 none,
       TrainOutcome.ok rows.length rr.2.1 rr.2.2.1)
    if MIN_AGE_STD_SQ ≤ age_var ∧ MIN_LOGKM_STD_SQ ≤ km_var then
      fitUpsert 4 (pooledDesignFull F cy rows) (fun c => (c 0, c 1, c 2, c 3))
    else if MIN_LOGKM_STD_SQ ≤ km_var then
      fitUpsert 2 (pooledDesignLogkm F rows) (fun c => (c 0, 0, c 1, 0))
    else if MIN_AGE_STD_SQ ≤ age_var then
      fitUpsert 2 (pooledDesignAge cy rows) (fun c => (c 0, c 1, 0, 0))
    else
      fitUpsert 1 (pooledDesignOnes rows) (fun c => (c 0, 0, 0, 0))

/-- The `[1, log_km]` design of `make_design_single_year` (lines 101-106). -/
def singleYearDesign (F : Prims) (rows : List CarListing) :
    Matrix (Fin rows.length) (Fin 2) ℚ :=
  Matrix.of fun i => ![1, logkmOf F rows i]

/-- `train_for_group_single_year` (lines 266-287): clean, gate at
`MIN_SAMPLES_MODEL_YEAR` rows, guard the `log_km` variance, fit the
2-column design and upsert under the `model_year` tier with the year set. -/
def train_for_group_single_year (F : Prims) (cy : ℤ) (db : Store)
    (rows0 : List CarListing) (make_norm model_base_s : String) (year : ℤ) :
    Store × TrainOutcome :=
  let rows := clean_rows cy rows0
  if rows.length < MIN_SAMPLES_MODEL_YEAR then (db, .skip "too_few_year_rows")
  else
    if varQ (List.ofFn (logkmOf F rows)) < MIN_LOGKM_STD_YR_SQ then
      (db, .skip "insufficient_km_variation")
    else
      let rr := robust_ridge F (singleYearDesign F rows) (priceOf rows) (wrecOf F rows)
      (upsert_model F db "model_year" (some make_norm) (some model_base_s)
        [rr.1 0, rr.1 1] rows.length rr.2.1 rr.2.2.1 (some year),
       TrainOutcome.ok rows.length rr.2.1 rr.2.2.1)

/-! ## Normalizer `model_base` (`utils/normalizer.py`, lines 29-108, 205-246)

The regex/NFKC string normalization of `normalize_model` is threaded
through as an arbitrary function parameter `N`; the token-level processing
`model_base` applies on top of it is embedded faithfully. -/

/-- The `ALIASES` dict of `utils/normalizer.py` in insertion order. -/
def ALIASES : List (String × String) :=
  [("vw", "volkswagen"), ("volks wagen", "volkswagen"),
   ("merc", "mercedes-benz"), ("merc benz", "mercedes-benz"),
   ("mb", "mercedes-benz"), ("bmw", "bmw"), ("toy", "toyota"),
   ("land rover", "land-rover"), ("lr", "land-rover"),
   ("rangerover", "range-rover"), ("range rover", "range-rover"),
   ("chevy", "chevrolet"), ("skoda", "škoda"),
   ("model s", "models"), ("model y", "modely"), ("model 3", "model3"),
   ("model x", "modelx"), ("c-hr", "chr"), ("i-pace", "ipace"),
   ("e-tron", "etron"), ("q4 e-tron", "q4"), ("id.3", "id3"),
   ("id.4", "id4"), ("id.5", "id5"), ("glc 300", "glc"),
   ("gle 350", "gle"), ("gla 250", "gla"), ("cla 250", "cla"),
   ("proace verso", "proace"), ("proace city", "proace"),
   ("santa fe", "santafe"), ("grand cherokee", "grandcherokee"),
   ("model s 100kwh", "models"), ("ioniq5", "ioniq 5"),
   ("enyaq sportback", "enyaq"), ("q4 sportback", "q4"),
   ("q8 sportback", "q8")]

/-- The `DROP_TOKENS` set of `utils/normalizer.py` (membership only). -/
def DROP_TOKENS : List String :=
  ["premium", "comfort", "sport", "gt", "gti", "gtd", "amg", "rs",
   "m-sport", "msport", "s-line", "sline", "limited", "ultimate",
   "elegance", "advanced", "luxury", "exclusive", "standard", "prestige",
   "platinum", "style", "active", "classic", "progressive", "intense",
   "calligraphy", "cosmo", "adventure", "altitude", "acenta", "tekna",
   "optimum", "elegant", "inscription", "trailhawk", "rubicon", "sahara",
   "denali", "at4", "at4x",
   "xdrive", "4matic", "quattro", "4motion",
   "plug-in", "plugin", "phev", "hybrid", "electric", "ev", "e-tech",
   "4x4", "awd", "fwd", "rwd", "4xe", "iperformance", "recharge",
   "tsi", "tdi", "dci", "cdti", "hdi", "bluehdi", "d4", "d5", "tfsi",
   "gte", "gtx", "etsi", "mhev", "bluetec", "kwh", "73kw", "51kw",
   "75kw", "64kwh", "39kwh", "100kwh", "505h",
   "long", "range", "l1", "l2", "l3", "h1", "h2", "h3", "l1h1", "l2h2",
   "l3h2", "h2l1", "edition", "package", "pack", "plus", "panorama",
   "langur", "extended", "crew", "double", "doublecab", "crewmax",
   "dual", "mega", "kasten", "manna", "angur", "vsk",
   "base", "core", "pro", "performance", "power", "perfo",
   "e", "se", "le", "gx", "vx", "ex",
   "r-dynamic", "bi-tone", "two-tone",
   "300", "350", "250", "200", "150", "500", "320", "330", "530",
   "616", "818", "519", "460", "37-tommu"]

/-- Python `str.split()` restricted to space whitespace: split and drop
empty pieces. -/
def splitWs (s : String) : List String := (s.splitOn " ").filter (· ≠ "")

/-- `re.fullmatch(r"[0-9]+", t)`. -/
def allDigits (t : String) : Bool := !t.isEmpty && t.toList.all (·.isDigit)

/-- `re.fullmatch(r"[0-9]{1,2}[a-z]", t)` (ASCII). -/
def digitsLetter (t : String) : Bool :=
  match t.toList with
  | [d, c] => d.isDigit && ('a' ≤ c && c ≤ 'z')
  | [d1, d2, c] => d1.isDigit && d2.isDigit && ('a' ≤ c && c ≤ 'z')
  | _ => false

/-- The token filter of `model_base` (lines 217-227): drop `DROP_TOKENS`
members, pure numbers, and short digit-letter codes. -/
def modelBaseTokens (m : String) : List String :=
  (splitWs m).filter fun t =>
    !(DROP_TOKENS.contains t) && !(allDigits t) &&
      !(digitsLetter t && decide (t.length ≤ 3))

/-- The alias scan of `model_base` (lines 212-214): first alias the string
starts with wins. -/
def findAlias (m : String) : Option String :=
  (ALIASES.find? fun av => m.startsWith av.1).map (·.2)

/-- The body of `model_base` after `normalize_model` returned a truthy
string (lines 211-246), including the Tesla special cases.  (`.toLower`
models Python `str.lower()`; they agree on ASCII, the only characters the
Tesla variant check compares.) -/
def model_base_core (m : String) : Option String :=
  match findAlias m with
  | some v => some v
  | none =>
    match modelBaseTokens m with
    | [] => none
    | t0 :: rest =>
      if t0 = "model" then
        match rest with
        | t1 :: _ =>
          let v := t1.toLower
          if v = "s" ∨ v = "3" ∨ v = "x" ∨ v = "y" then some ("model" ++ v)
          else some t0
        | [] => none
      else some t0

/-- `model_base(model)` (lines 205-246), parameterized by the
`normalize_model` string normalization `N`. -/
def model_base (N : Option String → Option String) (model : Option String) :
    Option String :=
  match N model with
  | none => none
  | some m => if m = "" then none else model_base_core m

/-! ## Bucket Router (`train_and_store`, lines 326-378) -/

/-- The `FAMILY_RULES` config (lines 39-46): `(make_norm, family_base,
match predicate)`.  The single configured rule pools every Mercedes-Benz
model whose base starts with `"e"`. -/
def FAMILY_RULES : List (String × String × (String → Bool)) :=
  [("mercedes-benz", "e", fun mb => mb.startsWith "e")]

/-- An observation paired with its normalized `(make_norm, model_base)` as
built by the normalization loop (lines 326-329). -/
abbrev Enriched := CarListing × Option String × Option String

/-- The normalization loop of `train_and_store` (lines 326-329),
parameterized by `normalize_make` (`Nmk`) and `normalize_model` (`Nmd`). -/
def enrich (Nmk Nmd : Option String → Option String) (cars : List CarListing) :
    List Enriched :=
  cars.map fun c => (c, Nmk c.make, model_base Nmd c.model)

/-- The rows accumulated under `by_model[(mk, mb)]` by the routing loop
(lines 337-341): the dict-building loop appends in traversal order, so each
key's list is the filter of the enriched list. -/
def by_model (enriched : List Enriched) (mk mb : String) : List CarListing :=
  (enriched.filter fun e =>
      truthyS e.2.1 && truthyS e.2.2 &&
        decide (e.2.1 = some mk) && decide (e.2.2 = some mb)).map (·.1)

/-- The rows accumulated under `by_family[(fam_make, fam_base)]` by the
family-routing loop (lines 343-346). -/
def by_family (enriched : List Enriched) (fam_make : String)
    (match_fn : String → Bool) : List CarListing :=
  (enriched.filter fun e =>
      truthyS e.2.1 && truthyS e.2.2 &&
        decide (e.2.1 = some fam_make) && match_fn (e.2.2.getD "")).map (·.1)

/-! ## Prediction Resolver (`analysis/predict_price.py`) -/

/-- Python `round` (banker's rounding, round-half-to-even), on the exact
rational model of the float. -/
def pyRound (x : ℚ) : ℤ :=
  if x - x.floor < 1/2 then x.floor
  else if 1/2 < x - x.floor then x.floor + 1
  else if x.floor % 2 = 0 then x.floor else x.floor + 1

/-- The `bucket_key` string `f"{tier}:{make or '-'}::{model or '-'}"` of
`_load_bucket` (line 54). -/
def bucketKeyStr (tier : String) (mk mb : Option String) : String :=
  tier ++ ":" ++ pyOrS mk "-" ++ "::" ++ pyOrS mb "-"

/-- `ORDER BY trained_at DESC ... first()`: the matching row with the
largest `trained_at` (the earliest row wins a tie). -/
def firstByTrainedAtDesc : List PriceModel → Option PriceModel
  | [] => none
  | pm :: rest =>
    match firstByTrainedAtDesc rest with
    | none => some pm
    | some best => if pm.trained_at < best.trained_at then some best else some pm

/-- `_load_bucket` (lines 29-55): filter the `price_models` table on
`(tier, make_norm, model_base)` with NULLs matching NULLs, take the most
recently trained row, and return its coefficients, `rmse or 0.0`, and the
bucket-key string.  (The query does not filter on `year`.) -/
def load_bucket (db : Store) (tier : String) (make_norm mb : Option String) :
    Option (Coefs × ℚ × String) :=
  let hits := db.filter fun pm =>
    decide (pm.tier = tier ∧ pm.make_norm = make_norm ∧ pm.model_base = mb)
  match firstByTrainedAtDesc hits with
  | none => none
  | some pm =>
    some (pm.coefs, pm.rmse.getD 0, bucketKeyStr tier pm.make_norm pm.model_base)

/-- `_best_bucket` (lines 57-80), taking the already-normalized
`(make_norm, model_base)` pair that `normalize_make_model` produces: try
the `model`, `make`, `global` tiers in that order; the first stored model
wins, else `(None, "none")`. -/
def best_bucket (db : Store) (nm mb : Option String) :
    Option (Coefs × ℚ × String) × String :=
  match (if truthyS nm && truthyS mb then load_bucket db "model" nm mb else none) with
  | some r => (some r, "model")
  | none =>
    match (if truthyS nm then load_bucket db "make" nm none else none) with
    | some r => (some r, "make")
    | none =>
      match load_bucket db "global" none none with
      | some r => (some r, "global")
      | none => (none, "none")

/-- `_features` (lines 82-89): clamp kilometers at 0, clamp age at 0, and
build `(age, log_km, age*log_km)`. -/
def features (F : Prims) (cy : ℤ) (year kilometers : ℤ) : ℚ × ℚ × ℚ :=
  let km := max 0 kilometers
  let age : ℚ := max 0 ((cy - year : ℤ) : ℚ)
  let logkm := F.log1p (km : ℚ)
  (age, logkm, age * logkm)

/-- `_predict_from_coefs` (lines 91-99). -/
def predict_from_coefs (F : Prims) (cy : ℤ) (coefs : Coefs)
    (year kilometers : ℤ) : ℚ :=
  let f := features F cy year kilometers
  coefs.intercept + coefs.beta_age * f.1 + coefs.beta_logkm * f.2.1 +
    coefs.beta_age_logkm * f.2.2

/-- The result dictionary of `predict_price`. -/
structure Prediction where
  predicted_price : Option ℤ
  tier_used : String
  bucket : Option String
  rmse : Option ℚ
  band : Option (ℤ × ℤ)
deriving DecidableEq, Repr

/-- `predict_price` (lines 101-144), after `normalize_make_model` has
produced `(nm, mb)`: resolve the best bucket; with no bucket return the
explicit all-null "none" result; otherwise floor the point estimate at 0
and round it, and build the band from `pred - rmse` and `pred + rmse`, each
endpoint separately floored at 0 and rounded.  The embedding is a total
function: no exception is possible. -/
def predict_price (F : Prims) (cy : ℤ) (db : Store) (nm mb : Option String)
    (year kilometers : ℤ) : Prediction :=
  match best_bucket db nm mb with
  | (none, _) =>
    { predicted_price := none, tier_used := "none", bucket := none,
      rmse := none, band := none }
  | (some (coefs, rmse, bucket_key), tier) =>
    let pred := predict_from_coefs F cy coefs year kilometers
    { predicted_price := some (pyRound (max 0 pred)), tier_used := tier,
      bucket := some bucket_key, rmse := some rmse,
      band := some (pyRound (max 0 (pred - rmse)), pyRound (max 0 (pred + rmse))) }

/-! ## Concrete fixtures used to evaluate the definitions on closed inputs -/

/-- One concrete interpretation of the numerical/text primitives (the
theorems below hold for every interpretation; witnesses use this one). -/
def F0 : Prims :=
  { log1p := id, decay := fun _ => 1, sqrtQ := fun _ => 0,
    pinv := fun {_} M => M, get_display_name := fun _ => none,
    pretty_make := fun _ => none, capitalize := id, now := 0 }

/-- A listing row with the given price, year and kilometers, scraped now. -/
def mkRow (price : ℚ) (year : ℤ) (km : ℚ) : CarListing :=
  { price := some price, year := some year, kilometers := some km,
    days_ago := 0, make := none, model := none }

/-- Ten same-year rows with varying kilometers: after the percentile trims
eight remain, all of year 2020. -/
def rowsSameYear : List CarListing :=
  [mkRow 1000000 2020 0, mkRow 1000000 2020 1, mkRow 1000000 2020 2,
   mkRow 1000000 2020 3, mkRow 1000000 2020 4, mkRow 1000000 2020 5,
   mkRow 1000000 2020 6, mkRow 1000000 2020 7, mkRow 1000000 2020 8,
   mkRow 1000000 2020 9]

/-- Twelve identical-kilometers rows of one year: passes the `model_year`
sample gate but fails its kilometers-variation guard. -/
def rowsFlatKm : List CarListing :=
  List.replicate 12 (mkRow 1000000 2020 100)

/-- A stored `model_year` record for (toyota, yaris, 2020). -/
def pmModelYear : PriceModel :=
  { tier := "model_year", make_norm := some "toyota",
    model_base := some "yaris", display_name := "Yaris",
    display_make := some "Toyota", coefs := ⟨1000000, 0, 0, 0⟩,
    n_samples := 12, r2 := 0, rmse := some 100, trained_at := 5,
    year := some 2020 }

/-- A stored pooled `model` record for (toyota, yaris). -/
def pmModel : PriceModel :=
  { tier := "model", make_norm := some "toyota", model_base := some "yaris",
    display_name := "Yaris", display_make := some "Toyota",
    coefs := ⟨2000000, 0, 0, 0⟩, n_samples := 20, r2 := 0,
    rmse := some 100, trained_at := 5, year := none }

/-- A stored `global` record. -/
def pmGlobal : PriceModel :=
  { tier := "global", make_norm := none, model_base := none,
    display_name := "Global", display_make := none,
    coefs := ⟨3000000, 0, 0, 0⟩, n_samples := 500, r2 := 0,
    rmse := some 250000, trained_at := 5, year := none }

/-- A store holding both a `model_year` and a `model` bucket for the same
(make, model); the resolver should prefer `model_year` per the spec. -/
def exDb : Store := [pmModelYear, pmModel]

/-- A store holding only a `global` record. -/
def exDbGlobal : Store := [pmGlobal]

/-! # Theorems -/

/-! ### Helper lemmas -/

theorem ratFloor_intFloor (q : ℚ) : q.floor = ⌊q⌋ :=
  (Rat.floor_def' q).trans Rat.floor_def.symm

theorem floor_le_pyRound (x : ℚ) : ⌊x⌋ ≤ pyRound x := by
  unfold pyRound
  rw [ratFloor_intFloor]
  split_ifs <;> omega

theorem pyRound_le_floor_add_one (x : ℚ) : pyRound x ≤ ⌊x⌋ + 1 := by
  unfold pyRound
  rw [ratFloor_intFloor]
  split_ifs <;> omega

theorem pyRound_mono {x y : ℚ} (h : x ≤ y) : pyRound x ≤ pyRound y := by
  rcases eq_or_lt_of_le (Int.floor_le_floor h) with hf | hf
  · unfold pyRound
    rw [ratFloor_intFloor, ratFloor_intFloor, ← hf]
    split_ifs <;> first | omega | linarith
  · have h1 := pyRound_le_floor_add_one x
    have h2 := floor_le_pyRound y
    omega

theorem pyRound_nonneg {x : ℚ} (h : 0 ≤ x) : 0 ≤ pyRound x := by
  have h1 : (0 : ℤ) ≤ ⌊x⌋ := Int.floor_nonneg.mpr h
  have h2 := floor_le_pyRound x
  omega

/-! ### C10 -/

/-- C10: for every successful prediction (a bucket resolved) whose stored
rmse is non-negative, the returned band brackets the returned point
estimate, `band.low ≤ predicted_price ≤ band.high`, and all three values
are non-negative, because each is the floor-at-0-then-round image of
`pred - rmse`, `pred`, `pred + rmse` under the same monotone transform. -/
theorem prediction_band_brackets_estimate
    (F : Prims) (cy : ℤ) (db : Store) (nm mb : Option String)
    (year km : ℤ) (c : Coefs) (rm : ℚ) (key tier : String)
    (hb : best_bucket db nm mb = (some (c, rm, key), tier)) (hrm : 0 ≤ rm) :
    ∃ lo pp hi,
      (predict_price F cy db nm mb year km).band = some (lo, hi) ∧
      (predict_price F cy db nm mb year km).predicted_price = some pp ∧
      lo ≤ pp ∧ pp ≤ hi ∧ 0 ≤ lo ∧ 0 ≤ pp ∧ 0 ≤ hi := by
  have hp : predict_price F cy db nm mb year km =
      { predicted_price :=
          some (pyRound (max 0 (predict_from_coefs F cy c year km))),
        tier_used := tier, bucket := some key, rmse := some rm,
        band := some
          (pyRound (max 0 (predict_from_coefs F cy c year km - rm)),
           pyRound (max 0 (predict_from_coefs F cy c year km + rm))) } := by
    unfold predict_price
    rw [hb]
  set pred := predict_from_coefs F cy c year km with hpred
  refine ⟨pyRound (max 0 (pred - rm)), pyRound (max 0 pred),
    pyRound (max 0 (pred + rm)), by rw [hp], by rw [hp], ?_, ?_, ?_, ?_, ?_⟩
  · exact pyRound_mono (max_le_max le_rfl (by linarith))
  · exact pyRound_mono (max_le_max le_rfl (by linarith))
  · exact pyRound_nonneg (le_max_left 0 _)
  · exact pyRound_nonneg (le_max_left 0 _)
  · exact pyRound_nonneg (le_max_left 0 _)

/-- Witness for C10 at the concrete one-record global store. -/
theorem prediction_band_brackets_estimate_witness :
    ∃ lo pp hi,
      (predict_price F0 2025 exDbGlobal none none 2020 100).band = some (lo, hi) ∧
      (predict_price F0 2025 exDbGlobal none none 2020 100).predicted_price = some pp ∧
      lo ≤ pp ∧ pp ≤ hi ∧ 0 ≤ lo ∧ 0 ≤ pp ∧ 0 ≤ hi :=
  prediction_band_brackets_estimate F0 2025 exDbGlobal none none 2020 100
    ⟨3000000, 0, 0, 0⟩ 250000 "global:-::-" "global" rfl (by norm_num)

/-! ### C5 -/

/-- C5: if no tier the resolver consults has a stored model for the query,
`predict_price` returns the explicit "none" result with null estimate,
null rmse and null band (the embedding is a total function, so no
exception is possible); and when a bucket is found the point estimate is
`pred` floored at 0 (then rounded) and the band is
`[pred - rmse, pred + rmse]` with each endpoint separately floored at 0
(then rounded). -/
theorem predict_none_result_and_band_formula
    (F : Prims) (cy : ℤ) (db : Store) (nm mb : Option String) (year km : ℤ) :
    (load_bucket db "model" nm mb = none →
     load_bucket db "make" nm none = none →
     load_bucket db "global" none none = none →
     predict_price F cy db nm mb year km =
       { predicted_price := none, tier_used := "none", bucket := none,
         rmse := none, band := none }) ∧
    (∀ (c : Coefs) (rm : ℚ) (key tier : String),
      best_bucket db nm mb = (some (c, rm, key), tier) →
      predict_price F cy db nm mb year km =
        { predicted_price :=
            some (pyRound (max 0 (predict_from_coefs F cy c year km))),
          tier_used := tier, bucket := some key, rmse := some rm,
          band := some
            (pyRound (max 0 (predict_from_coefs F cy c year km - rm)),
             pyRound (max 0 (predict_from_coefs F cy c year km + rm))) }) := by
  constructor
  · intro h1 h2 h3
    have hbb : best_bucket db nm mb = (none, "none") := by
      unfold best_bucket
      rcases Bool.eq_false_or_eq_true (truthyS nm && truthyS mb) with hb1 | hb1 <;>
        rcases Bool.eq_false_or_eq_true (truthyS nm) with hb2 | hb2 <;>
          simp [hb1, hb2, h1, h2, h3]
    unfold predict_price
    rw [hbb]
  · intro c rm key tier hb
    unfold predict_price
    rw [hb]

/-- Witness for C5: the empty store yields the "none" result, and the
one-record global store yields the banded result at tier "global". -/
theorem predict_none_result_and_band_formula_witness :
    predict_price F0 2025 ([] : Store) (some "a") (some "b") 2020 100 =
      { predicted_price := none, tier_used := "none", bucket := none,
        rmse := none, band := none } ∧
    predict_price F0 2025 exDbGlobal none none 2020 100 =
      { predicted_price :=
          some (pyRound (max 0 (predict_from_coefs F0 2025 ⟨3000000, 0, 0, 0⟩ 2020 100))),
        tier_used := "global", bucket := some "global:-::-",
        rmse := some 250000,
        band := some
          (pyRound (max 0 (predict_from_coefs F0 2025 ⟨3000000, 0, 0, 0⟩ 2020 100 - 250000)),
           pyRound (max 0 (predict_from_coefs F0 2025 ⟨3000000, 0, 0, 0⟩ 2020 100 + 250000))) } :=
  ⟨(predict_none_result_and_band_formula F0 2025 [] (some "a") (some "b") 2020 100).1
      rfl rfl rfl,
   (predict_none_result_and_band_formula F0 2025 exDbGlobal none none 2020 100).2
      ⟨3000000, 0, 0, 0⟩ 250000 "global:-::-" "global" rfl⟩

/-! ### C1 -/

/-- C1 counterexample: `exDb` stores both a `model_year` bucket for
(toyota, yaris, 2020) and a `model` bucket for (toyota, yaris); a query
for (toyota, yaris) with year 2020 supplied resolves to tier "model", not
"model_year" — the resolver never attempts a `model_year` lookup, refuting
the claimed lookup order at this input. -/
theorem resolver_ignores_model_year_counterexample :
    (∃ pm ∈ exDb, pm.tier = "model_year" ∧ pm.make_norm = some "toyota" ∧
      pm.model_base = some "yaris" ∧ pm.year = some (2020 : ℤ)) ∧
    (predict_price F0 2025 exDb (some "toyota") (some "yaris") 2020 50000).tier_used
      = "model" ∧
    (best_bucket exDb (some "toyota") (some "yaris")).2 ≠ "model_year" := by
  refine ⟨⟨pmModelYear, by decide, by decide⟩, by decide, by decide⟩

/-- C1 amended: the resolver attempts lookup in order `model` → `make` →
`global` only (it never consults the `model_year` tier, even when a year is
supplied), and the first of those tiers with a stored FittedModel wins; in
particular whenever more than one of the tiers {model, make, global} has a
stored model for the same query, the more specific of them is used. -/
theorem resolver_tier_fallback (db : Store) (nm mb : Option String) :
    ((best_bucket db nm mb).2 = "model" ∨ (best_bucket db nm mb).2 = "make" ∨
     (best_bucket db nm mb).2 = "global" ∨ (best_bucket db nm mb).2 = "none") ∧
    (∀ r, truthyS nm = true → truthyS mb = true →
      load_bucket db "model" nm mb = some r →
      best_bucket db nm mb = (some r, "model")) ∧
    (∀ r, (truthyS nm = true → truthyS mb = true →
        load_bucket db "model" nm mb = none) →
      truthyS nm = true → load_bucket db "make" nm none = some r →
      best_bucket db nm mb = (some r, "make")) ∧
    (∀ r, (truthyS nm = true → truthyS mb = true →
        load_bucket db "model" nm mb = none) →
      (truthyS nm = true → load_bucket db "make" nm none = none) →
      load_bucket db "global" none none = some r →
      best_bucket db nm mb = (some r, "global")) := by
  refine ⟨?_, ?_, ?_, ?_⟩
  · unfold best_bucket
    rcases Bool.eq_false_or_eq_true (truthyS nm) with hb2 | hb2 <;>
      rcases Bool.eq_false_or_eq_true (truthyS mb) with hb3 | hb3 <;>
        rcases hl1 : load_bucket db "model" nm mb with _ | r1 <;>
          rcases hl2 : load_bucket db "make" nm none with _ | r2 <;>
            rcases hl3 : load_bucket db "global" none none with _ | r3 <;>
              simp [hb2, hb3, hl1, hl2, hl3]
  · intro r h1 h2 h3
    unfold best_bucket
    simp [h1, h2, h3]
  · intro r h0 h1 h2
    unfold best_bucket
    rcases Bool.eq_false_or_eq_true (truthyS mb) with hb1 | hb1 <;>
      simp [h0, h1, h2, hb1]
  · intro r h0 hmk h2
    unfold best_bucket
    rcases Bool.eq_false_or_eq_true (truthyS nm) with hb1 | hb1 <;>
      rcases Bool.eq_false_or_eq_true (truthyS mb) with hb2 | hb2 <;>
        simp [h0, hmk, h2, hb1, hb2]

/-- Witness for the C1 amended theorem: each fallback case exercised on a
concrete store. -/
theorem resolver_tier_fallback_witness :
    best_bucket exDb (some "toyota") (some "yaris") =
      (some (pmModel.coefs, 100, "model:toyota::yaris"), "model") ∧
    best_bucket exDbGlobal (some "toyota") (some "yaris") =
      (some (pmGlobal.coefs, 250000, "global:-::-"), "global") :=
  ⟨(resolver_tier_fallback exDb (some "toyota") (some "yaris")).2.1
      _ rfl rfl rfl,
   (resolver_tier_fallback exDbGlobal (some "toyota") (some "yaris")).2.2.2
      _ (fun _ _ => rfl) (fun _ => rfl) rfl⟩

/-! ### C2 -/

/-- C2: a bucket that fails a minimum-sample or variance gate performs no
write to the model store: the store after the trainer call is exactly the
store before it, so every FittedModel record that existed for any key —
in particular for that bucket's exact key — is still present and
unchanged (nothing is created, deleted, or corrupted).  The three gates
are the pooled 8-row minimum, the `model_year` row minimum, and the
`model_year` kilometers-variation guard. -/
theorem skip_gates_preserve_store :
    (∀ (F : Prims) (cy : ℤ) (db : Store) (rows0 : List CarListing)
        (tier : String) (mk mb : Option String),
      (clean_rows cy rows0).length < 8 →
      (train_for_group_pooled F cy db rows0 tier mk mb).1 = db ∧
      ∀ pm, pm ∈ db ↔ pm ∈ (train_for_group_pooled F cy db rows0 tier mk mb).1) ∧
    (∀ (F : Prims) (cy : ℤ) (db : Store) (rows0 : List CarListing)
        (mk mb : String) (yr : ℤ),
      (clean_rows cy rows0).length < MIN_SAMPLES_MODEL_YEAR →
      (train_for_group_single_year F cy db rows0 mk mb yr).1 = db) ∧
    (∀ (F : Prims) (cy : ℤ) (db : Store) (rows0 : List CarListing)
        (mk mb : String) (yr : ℤ),
      ¬ (clean_rows cy rows0).length < MIN_SAMPLES_MODEL_YEAR →
      varQ (List.ofFn (logkmOf F (clean_rows cy rows0))) < MIN_LOGKM_STD_YR_SQ →
      (train_for_group_single_year F cy db rows0 mk mb yr).1 = db) := by
  refine ⟨?_, ?_, ?_⟩
  · intro F cy db rows0 tier mk mb h
    have he : train_for_group_pooled F cy db rows0 tier mk mb =
        (db, .skip "too_few_after_trim") := by
      unfold train_for_group_pooled
      simp only [if_pos h]
    rw [he]
    exact ⟨rfl, fun pm => Iff.rfl⟩
  · intro F cy db rows0 mk mb yr h
    unfold train_for_group_single_year
    simp only [if_pos h]
  · intro F cy db rows0 mk mb yr h1 h2
    unfold train_for_group_single_year
    simp only [if_neg h1, if_pos h2]

/-- Witness for C2: the empty row list fails both sample gates, and the
flat-kilometers fixture fails the `model_year` variance gate; in each case
the store `[pmModel]` is returned untouched. -/
theorem skip_gates_preserve_store_witness :
    (train_for_group_pooled F0 2025 [pmModel] [] "model" (some "a") (some "b")).1
      = [pmModel] ∧
    (train_for_group_single_year F0 2025 [pmModel] [] "a" "b" 2020).1 = [pmModel] ∧
    (train_for_group_single_year F0 2025 [pmModel] rowsFlatKm "a" "b" 2020).1
      = [pmModel] := by
  set_option maxRecDepth 10000 in
  refine ⟨(skip_gates_preserve_store.1 F0 2025 [pmModel] [] "model"
      (some "a") (some "b") (by decide)).1,
    skip_gates_preserve_store.2.1 F0 2025 [pmModel] [] "a" "b" 2020 (by decide),
    skip_gates_preserve_store.2.2 F0 2025 [pmModel] rowsFlatKm "a" "b" 2020
      (by with_unfolding_all decide) (by with_unfolding_all decide)⟩

/-! ### C6 -/

/-- C6: a pooled bucket with fewer than 8 cleaned observations fails with
the named skip reason `too_few_after_trim` (the code spelling of "too few
after trim"), with no exception and no write; a `model_year` bucket below
its separately configured higher minimum (12) fails with
`too_few_year_rows`; and a `model_year` bucket whose log-kilometers
variation is below its threshold fails with `insufficient_km_variation`. -/
theorem skip_gate_reasons :
    (∀ (F : Prims) (cy : ℤ) (db : Store) (rows0 : List CarListing)
        (tier : String) (mk mb : Option String),
      (clean_rows cy rows0).length < 8 →
      train_for_group_pooled F cy db rows0 tier mk mb =
        (db, .skip "too_few_after_trim")) ∧
    (∀ (F : Prims) (cy : ℤ) (db : Store) (rows0 : List CarListing)
        (mk mb : String) (yr : ℤ),
      (clean_rows cy rows0).length < MIN_SAMPLES_MODEL_YEAR →
      train_for_group_single_year F cy db rows0 mk mb yr =
        (db, .skip "too_few_year_rows")) ∧
    (∀ (F : Prims) (cy : ℤ) (db : Store) (rows0 : List CarListing)
        (mk mb : String) (yr : ℤ),
      ¬ (clean_rows cy rows0).length < MIN_SAMPLES_MODEL_YEAR →
      varQ (List.ofFn (logkmOf F (clean_rows cy rows0))) < MIN_LOGKM_STD_YR_SQ →
      train_for_group_single_year F cy db rows0 mk mb yr =
        (db, .skip "insufficient_km_variation")) := by
  refine ⟨?_, ?_, ?_⟩
  · intro F cy db rows0 tier mk mb h
    unfold train_for_group_pooled
    simp only [if_pos h]
  · intro F cy db rows0 mk mb yr h
    unfold train_for_group_single_year
    simp only [if_pos h]
  · intro F cy db rows0 mk mb yr h1 h2
    unfold train_for_group_single_year
    simp only [if_neg h1, if_pos h2]

/-- Witness for C6: each of the three skip reasons produced on a concrete
input. -/
theorem skip_gate_reasons_witness :
    train_for_group_pooled F0 2025 [] [mkRow 100 2020 5] "model"
        (some "a") (some "b") = ([], .skip "too_few_after_trim") ∧
    train_for_group_single_year F0 2025 [] [mkRow 100 2020 5] "a" "b" 2020 =
      ([], .skip "too_few_year_rows") ∧
    train_for_group_single_year F0 2025 [] rowsFlatKm "a" "b" 2020 =
      ([], .skip "insufficient_km_variation") := by
  set_option maxRecDepth 10000 in
  refine ⟨skip_gate_reasons.1 F0 2025 [] [mkRow 100 2020 5] "model"
      (some "a") (some "b") (by decide),
    skip_gate_reasons.2.1 F0 2025 [] [mkRow 100 2020 5] "a" "b" 2020 (by decide),
    skip_gate_reasons.2.2 F0 2025 [] rowsFlatKm "a" "b" 2020
      (by with_unfolding_all decide) (by with_unfolding_all decide)⟩

/-! ### C4 -/

theorem list_sum_const (xs : List ℚ) (c : ℚ) (h : ∀ x ∈ xs, x = c) :
    xs.sum = xs.length * c := by
  induction xs with
  | nil => simp
  | cons a t ih =>
    simp only [List.sum_cons, List.length_cons]
    rw [h a (List.mem_cons_self a t), ih fun x hx => h x (List.mem_cons_of_mem a hx)]
    push_cast
    ring

theorem varQ_const (xs : List ℚ) (c : ℚ) (h : ∀ x ∈ xs, x = c) : varQ xs = 0 := by
  unfold varQ
  rcases Nat.eq_zero_or_pos xs.length with h0 | h0
  · simp [h0]
  · have hne : xs.length ≠ 0 := Nat.pos_iff_ne_zero.mp h0
    have hcast : (xs.length : ℚ) ≠ 0 := Nat.cast_ne_zero.mpr hne
    rw [if_neg hne]
    have hm : xs.sum / (xs.length : ℚ) = c := by
      rw [list_sum_const xs c h, mul_div_cancel_left₀ c hcast]
    have hz : ∀ y ∈ xs.map fun x => (x - xs.sum / (xs.length : ℚ)) ^ 2, y = 0 := by
      intro y hy
      rcases List.mem_map.mp hy with ⟨x, hx, rfl⟩
      rw [h x hx, hm]
      ring
    show (xs.map fun x => (x - xs.sum / (xs.length : ℚ)) ^ 2).sum / (xs.length : ℚ) = 0
    rw [list_sum_const _ 0 hz]
    simp

/-- C4: for a pooled bucket whose cleaned observations all share one year
(so the age variation is below its threshold — the variance is exactly 0)
while the log-kilometers variation meets its threshold, the trainer
selects the `[intercept, log_km]` reduced design, and the persisted 4-slot
coefficient vector stores `beta_age` and `beta_age_logkm` as exactly 0. -/
theorem pooled_same_year_uses_logkm_design
    (F : Prims) (cy : ℤ) (db : Store) (rows0 : List CarListing)
    (tier : String) (mk mb : Option String) (y0 : ℤ)
    (hn : ¬ (clean_rows cy rows0).length < 8)
    (hyear : ∀ r ∈ clean_rows cy rows0, r.year = some y0)
    (hkm : MIN_LOGKM_STD_SQ ≤ varQ (List.ofFn (logkmOf F (clean_rows cy rows0)))) :
    (train_for_group_pooled F cy db rows0 tier mk mb =
      (let rows := clean_rows cy rows0
       let rr := robust_ridge F (pooledDesignLogkm F rows) (priceOf rows) (wrecOf F rows)
       (upsert_model F db tier mk mb [rr.1 0, 0, rr.1 1, 0] rows.length
          rr.2.1 rr.2.2.1 none,
        TrainOutcome.ok rows.length rr.2.1 rr.2.2.1))) ∧
    ((train_for_group_pooled F cy db rows0 tier mk mb).1.head?.map
      fun pm => (pm.coefs.beta_age, pm.coefs.beta_age_logkm)) = some (0, 0) := by
  have hv : varQ (List.ofFn (agesOf cy (clean_rows cy rows0))) = 0 := by
    apply varQ_const _ ((cy - y0 : ℤ) : ℚ)
    intro x hx
    rcases (List.mem_ofFn _ _).mp hx with ⟨i, rfl⟩
    have hy := hyear _ (List.get_mem (clean_rows cy rows0) i.1 i.2)
    unfold agesOf
    rw [hy]
    rfl
  have hcond1 : ¬ (MIN_AGE_STD_SQ ≤ varQ (List.ofFn (agesOf cy (clean_rows cy rows0))) ∧
      MIN_LOGKM_STD_SQ ≤ varQ (List.ofFn (logkmOf F (clean_rows cy rows0)))) := by
    rw [hv]
    rintro ⟨ha, -⟩
    norm_num [MIN_AGE_STD_SQ] at ha
  have he : train_for_group_pooled F cy db rows0 tier mk mb =
      (let rows := clean_rows cy rows0
       let rr := robust_ridge F (pooledDesignLogkm F rows) (priceOf rows) (wrecOf F rows)
       (upsert_model F db tier mk mb [rr.1 0, 0, rr.1 1, 0] rows.length
          rr.2.1 rr.2.2.1 none,
        TrainOutcome.ok rows.length rr.2.1 rr.2.2.1)) := by
    simp only [train_for_group_pooled]
    rw [if_neg hn, if_neg hcond1, if_pos hkm]
  refine ⟨he, ?_⟩
  rw [he]
  simp only [upsert_model, coefJsonOf]
  simp

/-- Witness for C4 at the ten-row same-year fixture: the stored record has
`beta_age = 0` and `beta_age_logkm = 0`. -/
theorem pooled_same_year_uses_logkm_design_witness :
    ((train_for_group_pooled F0 2025 [] rowsSameYear "model"
        (some "a") (some "b")).1.head?.map
      fun pm => (pm.coefs.beta_age, pm.coefs.beta_age_logkm)) = some (0, 0) := by
  set_option maxRecDepth 10000 in
  exact (pooled_same_year_uses_logkm_design F0 2025 [] rowsSameYear "model"
    (some "a") (some "b") 2020 (by with_unfolding_all decide)
    (by with_unfolding_all decide) (by with_unfolding_all decide)).2

/-! ### C7 -/

theorem valid_rows_subset (cy : ℤ) (rows : List CarListing) :
    ∀ r ∈ valid_rows cy rows, r ∈ rows := by
  intro r hr
  unfold valid_rows at hr
  exact List.mem_of_mem_filter (List.mem_of_mem_filter hr)

theorem clean_rows_subset_valid (cy : ℤ) (rows : List CarListing) :
    ∀ r ∈ clean_rows cy rows, r ∈ valid_rows cy rows := by
  intro r hr
  simp only [clean_rows] at hr
  split_ifs at hr
  · exact absurd hr (List.not_mem_nil r)
  · exact hr
  · exact List.mem_of_mem_filter hr
  · exact List.mem_of_mem_filter (List.mem_of_mem_filter hr)

/-- C7: after the validity filter, a surviving collection of fewer than 5
observations is returned exactly as-is with no trimming; otherwise every
returned observation's price lies within the 5th-95th percentile of the
surviving prices; and in all cases the output is a subset of the input. -/
theorem cleaner_small_passthrough_and_trim_bounds (cy : ℤ) (rows : List CarListing) :
    ((valid_rows cy rows).length < 5 → clean_rows cy rows = valid_rows cy rows) ∧
    (¬ (valid_rows cy rows).length < 5 →
      ∀ r ∈ clean_rows cy rows,
        percentile ((valid_rows cy rows).map fun x => x.price.getD 0) 5 ≤
          r.price.getD 0 ∧
        r.price.getD 0 ≤
          percentile ((valid_rows cy rows).map fun x => x.price.getD 0) 95) ∧
    (∀ r ∈ clean_rows cy rows, r ∈ rows) := by
  refine ⟨?_, ?_, ?_⟩
  · intro h
    by_cases h0 : rows = []
    · subst h0
      rfl
    · simp only [clean_rows]
      rw [if_neg h0, if_pos h]
  · intro h r hr
    have h0 : rows ≠ [] := by
      intro h0
      apply h
      subst h0
      show (valid_rows cy []).length < 5
      have hv : valid_rows cy ([] : List CarListing) = [] := rfl
      rw [hv]
      decide
    simp only [clean_rows] at hr
    rw [if_neg h0, if_neg h] at hr
    have hr2 : r ∈ (valid_rows cy rows).filter fun x =>
        decide (percentile ((valid_rows cy rows).map fun t => t.price.getD 0) 5 ≤
            x.price.getD 0 ∧
          x.price.getD 0 ≤
            percentile ((valid_rows cy rows).map fun t => t.price.getD 0) 95) := by
      split_ifs at hr
      · exact hr
      · exact List.mem_of_mem_filter hr
    exact of_decide_eq_true (List.mem_filter.mp hr2).2
  · exact fun r hr => valid_rows_subset cy rows r (clean_rows_subset_valid cy rows r hr)

/-- Witness for C7: a one-row input passes through untrimmed, and on the
ten-row fixture every cleaned row's price sits inside the percentile
bounds of the surviving prices while the output stays inside the input. -/
theorem cleaner_small_passthrough_and_trim_bounds_witness :
    clean_rows 2025 [mkRow 100 2020 5] = valid_rows 2025 [mkRow 100 2020 5] ∧
    (∀ r ∈ clean_rows 2025 rowsSameYear,
      percentile ((valid_rows 2025 rowsSameYear).map fun x => x.price.getD 0) 5 ≤
        r.price.getD 0 ∧
      r.price.getD 0 ≤
        percentile ((valid_rows 2025 rowsSameYear).map fun x => x.price.getD 0) 95) ∧
    (∀ r ∈ clean_rows 2025 rowsSameYear, r ∈ rowsSameYear) := by
  set_option maxRecDepth 10000 in
  refine ⟨(cleaner_small_passthrough_and_trim_bounds 2025 [mkRow 100 2020 5]).1
      (by with_unfolding_all decide),
    (cleaner_small_passthrough_and_trim_bounds 2025 rowsSameYear).2.1
      (by with_unfolding_all decide),
    (cleaner_small_passthrough_and_trim_bounds 2025 rowsSameYear).2.2⟩

/-! ### C8 -/

/-- C8: for every residual vector and every scale above the numerical-zero
threshold `1e-9`, the Huber weight of each residual is exactly 1 when
`|resid| / (scale·c) ≤ 1` and `1 / |resid/(scale·c)|` otherwise, always
lies in `(0, 1]`, and is never 0 — points are down-weighted, never
discarded. -/
theorem huber_weight_formula_and_bounds
    (n : ℕ) (residuals : Fin n → ℚ) (scale : ℚ)
    (hs : NUMERICAL_ZERO < scale) (i : Fin n) :
    (|residuals i / (scale * HUBER_C)| ≤ 1 →
      huber_weights residuals scale HUBER_C i = 1) ∧
    (1 < |residuals i / (scale * HUBER_C)| →
      huber_weights residuals scale HUBER_C i =
        1 / |residuals i / (scale * HUBER_C)|) ∧
    0 < huber_weights residuals scale HUBER_C i ∧
    huber_weights residuals scale HUBER_C i ≤ 1 := by
  have hns : ¬ scale ≤ NUMERICAL_ZERO := not_le.mpr hs
  have hfun : huber_weights residuals scale HUBER_C i =
      min 1 (max 0 (if 1 < |residuals i / (scale * HUBER_C)|
        then 1 / max |residuals i / (scale * HUBER_C)| NUMERICAL_ZERO else 1)) := by
    simp only [huber_weights, huber_weight1]
    rw [if_neg hns]
  rw [hfun]
  by_cases h1 : 1 < |residuals i / (scale * HUBER_C)|
  · have habs : (0 : ℚ) < |residuals i / (scale * HUBER_C)| := lt_trans one_pos h1
    have hmax : max |residuals i / (scale * HUBER_C)| NUMERICAL_ZERO =
        |residuals i / (scale * HUBER_C)| := by
      apply max_eq_left
      have : NUMERICAL_ZERO ≤ (1 : ℚ) := by norm_num [NUMERICAL_ZERO]
      linarith
    rw [if_pos h1, hmax]
    have hw0 : (0 : ℚ) < 1 / |residuals i / (scale * HUBER_C)| := by positivity
    have hw1 : 1 / |residuals i / (scale * HUBER_C)| ≤ 1 := by
      rw [div_le_one habs]
      exact le_of_lt h1
    rw [max_eq_right (le_of_lt hw0), min_eq_right hw1]
    exact ⟨fun hc => absurd h1 (not_lt.mpr hc), fun _ => rfl, hw0, hw1⟩
  · rw [if_neg h1]
    have hmm : min (1 : ℚ) (max 0 1) = 1 := by norm_num
    rw [hmm]
    exact ⟨fun _ => rfl, fun hc => absurd hc h1, one_pos, le_rfl⟩

/-- Witness for C8 at residual 3, scale 1. -/
theorem huber_weight_formula_and_bounds_witness :
    (|(![3] : Fin 1 → ℚ) 0 / (1 * HUBER_C)| ≤ 1 →
      huber_weights ![3] 1 HUBER_C 0 = 1) ∧
    (1 < |(![3] : Fin 1 → ℚ) 0 / (1 * HUBER_C)| →
      huber_weights ![3] 1 HUBER_C 0 = 1 / |(![3] : Fin 1 → ℚ) 0 / (1 * HUBER_C)|) ∧
    0 < huber_weights ![3] 1 HUBER_C 0 ∧ huber_weights ![3] 1 HUBER_C 0 ≤ 1 :=
  huber_weight_formula_and_bounds 1 ![3] 1 (by with_unfolding_all decide) 0

/-! ### C9 -/

/-- C9: in every IRLS round the ridge penalty is
`α_base · (4 / max(n_eff, 4))` with `n_eff` the Kish effective sample size
of the current weight vector (the code's inner `max(·, 1)` collapses into
`max(·, 4)`); this penalty is non-increasing in `n_eff` and equals
`α_base` whenever `n_eff ≤ 4`; and the regularization matrix added to the
weighted normal equations has intercept diagonal entry 0, so the intercept
is never regularized. -/
theorem ridge_penalty_adaptive_formula :
    (∀ (n : ℕ) (w : Fin n → ℚ),
      irls_alpha w = RIDGE_ALPHA_BASE * (4 / max (kishFn w) 4)) ∧
    (∀ a b : ℚ, a ≤ b →
      RIDGE_ALPHA_BASE * (4 / max b 4) ≤ RIDGE_ALPHA_BASE * (4 / max a 4)) ∧
    (∀ a : ℚ, a ≤ 4 → RIDGE_ALPHA_BASE * (4 / max a 4) = RIDGE_ALPHA_BASE) ∧
    (∀ (p : ℕ) (alpha : ℚ) (h : 0 < p),
      (alpha • interceptZeroEye p) ⟨0, h⟩ ⟨0, h⟩ = 0) := by
  refine ⟨?_, ?_, ?_, ?_⟩
  · intro n w
    simp only [irls_alpha]
    rw [max_assoc]
    norm_num
  · intro a b hab
    have h4a : (0 : ℚ) < max a 4 := lt_of_lt_of_le (by norm_num) (le_max_right a 4)
    have hle : max a 4 ≤ max b 4 := max_le_max hab le_rfl
    have hdiv : 4 / max b 4 ≤ 4 / max a 4 := by
      gcongr
    simp only [RIDGE_ALPHA_BASE, one_mul]
    exact hdiv
  · intro a ha
    rw [max_eq_right ha]
    norm_num
  · intro p alpha h
    simp [interceptZeroEye]

/-- Witness for C9 at concrete inputs: the uniform two-element weight
vector, penalty monotonicity between 1 and 2, the small-sample plateau at
2, and the 1×1 regularization matrix. -/
theorem ridge_penalty_adaptive_formula_witness :
    irls_alpha (![1, 1] : Fin 2 → ℚ) =
      RIDGE_ALPHA_BASE * (4 / max (kishFn (![1, 1] : Fin 2 → ℚ)) 4) ∧
    RIDGE_ALPHA_BASE * (4 / max (2 : ℚ) 4) ≤ RIDGE_ALPHA_BASE * (4 / max (1 : ℚ) 4) ∧
    RIDGE_ALPHA_BASE * (4 / max (2 : ℚ) 4) = RIDGE_ALPHA_BASE ∧
    ((7 : ℚ) • interceptZeroEye 1) ⟨0, by decide⟩ ⟨0, by decide⟩ = 0 :=
  ⟨ridge_penalty_adaptive_formula.1 2 ![1, 1],
   ridge_penalty_adaptive_formula.2.1 1 2 (by with_unfolding_all decide),
   ridge_penalty_adaptive_formula.2.2.1 2 (by with_unfolding_all decide),
   ridge_penalty_adaptive_formula.2.2.2 1 7 (by decide)⟩

/-! ### C3 -/

theorem model_base_core_ne_e (m : String) : model_base_core m ≠ some "e" := by
  have hAl : ∀ x ∈ ALIASES, x.2 ≠ "e" := by decide
  have hDropE : DROP_TOKENS.contains "e" = true := by decide
  have htok : ∀ t ∈ modelBaseTokens m, t ≠ "e" := by
    intro t ht he
    have hp := (List.mem_filter.mp ht).2
    rw [he, hDropE] at hp
    simp at hp
  unfold model_base_core
  split
  · next v hA =>
    intro hv
    injection hv with hv
    unfold findAlias at hA
    rcases hfind : ALIASES.find? (fun av => m.startsWith av.1) with _ | av
    · rw [hfind] at hA
      simp at hA
    · rw [hfind] at hA
      simp only [Option.map_some'] at hA
      injection hA with hA
      exact hAl av (List.mem_of_find?_eq_some hfind) (hA.trans hv)
  · next hA =>
    split
    · simp
    · next t0 rest hT =>
      have ht0 : t0 ≠ "e" := htok t0 (hT ▸ List.mem_cons_self _ _)
      cases rest with
      | nil =>
        split_ifs with hm0
        · simp
        · intro hc
          injection hc with hc
          exact ht0 hc
      | cons t1 r2 =>
        split_ifs with hm0
        · show (if t1.toLower = "s" ∨ t1.toLower = "3" ∨ t1.toLower = "x" ∨
              t1.toLower = "y"
              then some ("model" ++ t1.toLower) else some t0) ≠ some "e"
          split_ifs with hv
          · rcases hv with hv | hv | hv | hv <;> rw [hv] <;> decide
          · intro hc
            injection hc with hc
            exact ht0 hc
        · intro hc
          injection hc with hc
          exact ht0 hc

theorem model_base_ne_e (N : Option String → Option String)
    (model : Option String) : model_base N model ≠ some "e" := by
  unfold model_base
  cases N model with
  | none => simp
  | some m =>
    show (if m = "" then none else model_base_core m) ≠ some "e"
    by_cases hm : m = ""
    · rw [if_pos hm]
      simp
    · rw [if_neg hm]
      exact model_base_core_ne_e m

/-- C3: an observation matching a family-pool predicate is routed into the
family pool in addition to — never instead of — its own specific-model
bucket; and the family pool's model-tier bucket key can never coincide
with a real model bucket key of the same run, because the normalizer's
`model_base` never produces the configured family label (the token `"e"`
is always dropped, every alias value differs from it, and the Tesla
special case prefixes `"model"`). -/
theorem family_pool_additive_and_key_disjoint :
    (∀ (enriched : List Enriched) (c : CarListing) (nm mb fm fb : String)
        (mf : String → Bool),
      (fm, fb, mf) ∈ FAMILY_RULES → (c, some nm, some mb) ∈ enriched →
      nm ≠ "" → mb ≠ "" → nm = fm → mf mb = true →
      c ∈ by_family enriched fm mf ∧ c ∈ by_model enriched nm mb) ∧
    (∀ (fm fb : String) (mf : String → Bool), (fm, fb, mf) ∈ FAMILY_RULES →
      ∀ (Nmk Nmd : Option String → Option String) (cars : List CarListing),
        ∀ e ∈ enrich Nmk Nmd cars, e.2.2 ≠ some fb) := by
  constructor
  · intro enriched c nm mb fm fb mf hrule hmem hnm hmb hnmfm hmf
    subst hnmfm
    constructor
    · unfold by_family
      apply List.mem_map.mpr
      refine ⟨(c, some nm, some mb), List.mem_filter.mpr ⟨hmem, ?_⟩, rfl⟩
      simp [truthyS, hnm, hmb, hmf]
    · unfold by_model
      apply List.mem_map.mpr
      refine ⟨(c, some nm, some mb), List.mem_filter.mpr ⟨hmem, ?_⟩, rfl⟩
      simp [truthyS, hnm, hmb]
  · intro fm fb mf hrule Nmk Nmd cars e he
    have hfb : fb = "e" := by
      simp only [FAMILY_RULES, List.mem_singleton, Prod.mk.injEq] at hrule
      exact hrule.2.1
    rcases List.mem_map.mp he with ⟨car, _, rfl⟩
    rw [hfb]
    exact model_base_ne_e Nmd car.model

/-- Witness for C3: a Mercedes "eqc" row lands in both the family pool and
its own model bucket, and no enriched row's model base can equal the
family label. -/
theorem family_pool_additive_and_key_disjoint_witness :
    (mkRow 100 2020 5 ∈ by_family
        [(mkRow 100 2020 5, some "mercedes-benz", some "eqc")]
        "mercedes-benz" (fun mb => mb.startsWith "e") ∧
     mkRow 100 2020 5 ∈ by_model
        [(mkRow 100 2020 5, some "mercedes-benz", some "eqc")]
        "mercedes-benz" "eqc") ∧
    (∀ e ∈ enrich (fun x => x) (fun x => x) [mkRow 100 2020 5],
      e.2.2 ≠ some "e") :=
  ⟨family_pool_additive_and_key_disjoint.1
      [(mkRow 100 2020 5, some "mercedes-benz", some "eqc")]
      (mkRow 100 2020 5) "mercedes-benz" "eqc" "mercedes-benz" "e"
      (fun mb => mb.startsWith "e") (List.mem_cons_self _ _)
      (List.mem_cons_self _ _) (by decide) (by decide) rfl
      (by with_unfolding_all decide),
   family_pool_additive_and_key_disjoint.2 "mercedes-benz" "e"
      (fun mb => mb.startsWith "e") (List.mem_cons_self _ _)
      (fun x => x) (fun x => x) [mkRow 100 2020 5]⟩

end Scraper
